import Mathlib

/-!
Verification development for the mlflow-production-setup repository.

The repository consists of one script, src/mlflow-client/train.py: it
configures an experiment-tracking client, loads the iris dataset, performs a
stratified train/test split, fits a random-forest classifier, computes four
metrics, records parameters, metrics and a model artifact inside a scoped
tracking run, and prints the metrics.

The tracking client (mlflow) and the statistical library (sklearn) are
external collaborators, not part of this repository; their observable
behaviour at the interfaces the script uses is modelled from the design
document (the Run Recorder contract, the split function contract). The
call sequence of the script itself is embedded literally from train.py,
with an exception injectable at each external call site so that abnormal
exits of every scope can be analysed.
-/

/-- Status of a tracking run, from the design document state machine:
running while the scope is open, completed or failed once sealed. -/
inductive RunStatus
  | running
  | completed
  | failed
deriving DecidableEq, BEq

/-- Extended phase used to state the run lifecycle state machine,
including the state before the run is opened. -/
inductive Phase
  | unopened
  | running
  | completed
  | failed
deriving DecidableEq, BEq, Fintype

/-- Error taxonomy of the Run Recorder, from the design document. -/
inductive Err
  | backendUnavailable
  | duplicateParameter
  | serializationError
deriving DecidableEq, BEq

/-- The buffer of one open run: name, ordered parameter records, ordered
metric records, logged artifact labels. -/
structure RunData where
  name : String
  params : List (String × String)
  metrics : List (String × ℚ)
  artifacts : List String
deriving DecidableEq

/-- A sealed run as stored by the tracking backend: its buffered records
plus the terminal (or still running, if leaked) status. -/
structure Run where
  data : RunData
  status : RunStatus
deriving DecidableEq

/-- Process-wide tracking-client state: configuration values, the runs the
backend stores, the single active run buffer, and a counter of how many
times a run was sealed (close executions). -/
structure Tracker where
  trackingUri : Option String
  experiment : Option String
  backendRuns : List Run
  activeRun : Option RunData
  closeCount : Nat
deriving DecidableEq

/-- The tracking-client state before any configuration call. -/
def Tracker.init : Tracker :=
  { trackingUri := none, experiment := none, backendRuns := [],
    activeRun := none, closeCount := 0 }

/-- Modelled from the spec: mlflow.set_tracking_uri (external library, not in
src/) — records the tracking backend address as process-wide configuration. -/
def setTrackingUri (uri : String) (st : Tracker) : Tracker :=
  { st with trackingUri := some uri }

/-- Modelled from the spec: mlflow.set_experiment (external library, not in
src/) — records the experiment namespace as process-wide configuration. -/
def setExperiment (name : String) (st : Tracker) : Tracker :=
  { st with experiment := some name }

/-- Fresh buffer for a newly opened run. -/
def newRunData (name : String) : RunData :=
  { name := name, params := [], metrics := [], artifacts := [] }

/-- Modelled from the spec: the open half of mlflow.start_run (external
library, not in src/) — begins a new Run with an empty buffer, status
conceptually running while the buffer is active. -/
def startRun (name : String) (st : Tracker) : Tracker :=
  { st with activeRun := some (newRunData name) }

/-- Modelled from the spec: the close half of the scoped run — seals the
active run with the given outcome, flushes it to the backend, and releases
the buffer; a no-op when no run is open. -/
def endRun (outcome : RunStatus) (st : Tracker) : Tracker :=
  match st.activeRun with
  | none => st
  | some r =>
      { st with backendRuns := st.backendRuns ++ [{ data := r, status := outcome }],
                activeRun := none,
                closeCount := st.closeCount + 1 }

/-- One logging operation performed inside the run scope of train.py. -/
inductive RunOp
  | logParam (name value : String)
  | logMetric (name : String) (value : ℚ)
  | logModel (label : String)

/-- Modelled from the spec: the per-record contract of the Run Recorder
(mlflow log_param / log_metric / sklearn.log_model, external libraries, not
in src/). log_param fails with DuplicateParameter when the name was already
set on this run; log_metric attaches a metric record; log_model stores the
artifact under its label. -/
def applyRunOp (op : RunOp) (r : RunData) : Except Err RunData :=
  match op with
  | .logParam n v =>
      if r.params.any (fun p => p.1 == n) then
        Except.error Err.duplicateParameter
      else
        Except.ok { r with params := r.params ++ [(n, v)] }
  | .logMetric n v =>
      Except.ok { r with metrics := r.metrics ++ [(n, v)] }
  | .logModel label =>
      Except.ok { r with artifacts := r.artifacts ++ [label] }

/-- Every external call site of train.py, in program order: the eight
computation steps before the run scope (lines 23-55) and the nine logging
calls inside the with-block (lines 63-78). A fault injected at a site
models that call raising an exception. -/
inductive Site
  | loadData
  | split
  | fit
  | predict
  | mAccuracy
  | mPrecision
  | mRecall
  | mF1
  | pModelType
  | pNEstimators
  | pMaxDepth
  | pDataset
  | lAccuracy
  | lPrecision
  | lRecall
  | lF1
  | logModel
deriving DecidableEq, BEq, Fintype

/-- An execution either runs fault-free (none) or the named call site
raises an exception (some s). -/
abbrev Fault := Option Site

/-- The call sites executed before the run scope opens, in the order of
train.py lines 23-55: load_iris, train_test_split, model.fit,
model.predict, and the four metric computations. -/
def preSites : List Site :=
  [Site.loadData, Site.split, Site.fit, Site.predict,
   Site.mAccuracy, Site.mPrecision, Site.mRecall, Site.mF1]

/-- Whether the injected fault strikes before the run scope is reached. -/
def faultBeforeRun (fault : Fault) : Bool :=
  match fault with
  | some s => preSites.contains s
  | none => false

/-- The four metric values computed by the external evaluation code
(lines 52-55 of train.py); opaque inputs to the logging stage. -/
structure MetricVals where
  accuracy : ℚ
  precisionVal : ℚ
  recallVal : ℚ
  f1Val : ℚ

/-- The body of the with-block of train.py (lines 63-78), literally: four
log_param calls, four log_metric calls, one log_model call, each tagged
with its fault site. -/
def bodyOps (mv : MetricVals) : List (Site × RunOp) :=
  [(Site.pModelType, RunOp.logParam "model_type" "RandomForestClassifier"),
   (Site.pNEstimators, RunOp.logParam "n_estimators" "100"),
   (Site.pMaxDepth, RunOp.logParam "max_depth" "5"),
   (Site.pDataset, RunOp.logParam "dataset" "iris"),
   (Site.lAccuracy, RunOp.logMetric "accuracy" mv.accuracy),
   (Site.lPrecision, RunOp.logMetric "precision_macro" mv.precisionVal),
   (Site.lRecall, RunOp.logMetric "recall_macro" mv.recallVal),
   (Site.lF1, RunOp.logMetric "f1_macro" mv.f1Val),
   (Site.logModel, RunOp.logModel "model")]

/-- Executes the with-block body on the active run buffer: stops with a
raised exception either at the injected fault site or when an operation
itself fails; returns the buffer reached and whether an exception was
raised out of the body. -/
def runBody (fault : Fault) : List (Site × RunOp) → RunData → RunData × Bool
  | [], r => (r, false)
  | (s, op) :: rest, r =>
      if fault == some s then (r, true)
      else
        match applyRunOp op r with
        | Except.error _ => (r, true)
        | Except.ok r' => runBody fault rest r'

/-- Result of one process execution: final tracking-client state, whether
the process exited normally, and the lines printed to standard output. -/
structure ExecResult where
  tracker : Tracker
  normalExit : Bool
  output : List String

/-- Rounds a rational to four decimal places, scaled by ten thousand. -/
def round4 (q : ℚ) : Int := ⌊q * 10000 + 1 / 2⌋

/-- The four fractional digits of the .4f rendering: always exactly four
characters. -/
def fracPart4 (q : ℚ) : String :=
  let m := (round4 q % 10000).toNat
  String.mk [Nat.digitChar (m / 1000 % 10), Nat.digitChar (m / 100 % 10),
             Nat.digitChar (m / 10 % 10), Nat.digitChar (m % 10)]

/-- The integer part of the .4f rendering. -/
def intPart4 (q : ℚ) : String := toString (round4 q / 10000)

/-- Rendering of a value to four decimal places, as the f-strings of
lines 81-84 of train.py do with :.4f. -/
def fmt4 (q : ℚ) : String := intPart4 q ++ "." ++ fracPart4 q

/-- The five lines printed on normal termination (lines 80-84 of
train.py). -/
def printLines (mv : MetricVals) : List String :=
  ["Run completed",
   "Accuracy : " ++ fmt4 mv.accuracy,
   "Precision: " ++ fmt4 mv.precisionVal,
   "Recall   : " ++ fmt4 mv.recallVal,
   "F1-score : " ++ fmt4 mv.f1Val]

/-- The whole of train.py as one execution, parameterised by the metric
values the external evaluation produces and by an injected fault site:
configuration (lines 17-18), the pre-run computation (lines 23-55, which
touch no tracking state and on failure abort before any run exists), the
scoped run (lines 60-78, where the with-statement guarantees the close
half runs on both normal and exceptional exit, sealing the run as
completed or failed respectively), and the prints (lines 80-84, reached
only on normal exit). -/
def execScript (mv : MetricVals) (fault : Fault) : ExecResult :=
  let st1 := setTrackingUri "http://<EC2_PUBLIC_IP>:5000" Tracker.init
  let st2 := setExperiment "sklearn-classification-baseline" st1
  if faultBeforeRun fault then
    { tracker := st2, normalExit := false, output := [] }
  else
    let st3 := startRun "run_2" st2
    let body := runBody fault (bodyOps mv) (newRunData "run_2")
    let st4 := { st3 with activeRun := some body.1 }
    let st5 := endRun (if body.2 then RunStatus.failed else RunStatus.completed) st4
    { tracker := st5,
      normalExit := !body.2,
      output := if body.2 then [] else printLines mv }

/-- The statuses of the runs the backend stores after an execution. -/
def runStatuses (res : ExecResult) : List RunStatus :=
  res.tracker.backendRuns.map (fun r => r.status)

/-- The labels of the iris dataset as load_iris(return_X_y=True) yields
them (line 23 of train.py): 150 samples, classes 0, 1, 2 in order, 50
each. -/
def irisLabels : List Nat :=
  List.replicate 50 0 ++ List.replicate 50 1 ++ List.replicate 50 2

/-- The row indices of the dataset carrying class c. -/
def classIndices (labels : List Nat) (c : Nat) : List Nat :=
  (List.range labels.length).filter (fun i => labels.getD i 1000 == c)

/-- Deterministic seed-keyed permutation of a list: position j reads the
element at position (13 j + seed) mod length. For lengths coprime to 13
this is a bijection on positions. -/
def permuteBySeed (seed : Nat) (l : List Nat) : List Nat :=
  (List.range l.length).map (fun j => l.getD ((13 * j + seed) % l.length) 0)

/-- Modelled from the spec: sklearn train_test_split with stratify=y
(external library, not in src/) — partitions the dataset rows into
train/test subsets under a fixed test ratio (given in permille) and a
deterministic seed, preserving class balance: within each class the rows
are permuted by the seed and the test share is taken per class. The call
of line 25-31 of train.py passes test ratio 600 permille and seed 42;
rows are represented by their indices (the feature and label arrays are
carried by the same indices). -/
def train_test_split (labels : List Nat) (testPermille seed : Nat) :
    List Nat × List Nat :=
  let classes := labels.dedup
  let parts := classes.map (fun c =>
    let idx := permuteBySeed (seed + c) (classIndices labels c)
    let nTest := idx.length * testPermille / 1000
    (idx.drop nTest, idx.take nTest))
  (parts.flatMap (fun p => p.1), parts.flatMap (fun p => p.2))

/-- One execution of the split stage of train.py, indexed by an execution
identifier: every execution performs the same call
train_test_split(..., test_size=0.6, random_state=42, stratify=y). -/
def splitExecution (_execId : Nat) : List Nat × List Nat :=
  train_test_split irisLabels 600 42

/-- How many rows of an index list carry class c in the iris labels. -/
def countClass (idxs : List Nat) (c : Nat) : Nat :=
  (idxs.filter (fun i => irisLabels.getD i 1000 == c)).length

/-- Observable events of one process execution, used to state ordering
properties over the call sequence of train.py. -/
inductive Ev
  | cfgUri
  | cfgExp
  | computeEv (s : Site)
  | openEv
  | bodyEv (s : Site)
  | closeEv
  | printEv
deriving DecidableEq, BEq

/-- The sites of a straight-line sequence that actually execute before an
injected fault aborts it, and whether the fault struck in this sequence. -/
def takeUntilFault (fault : Fault) : List Site → List Site × Bool
  | [] => ([], false)
  | s :: rest =>
      if fault == some s then ([], true)
      else
        let t := takeUntilFault fault rest
        (s :: t.1, t.2)

/-- The sites of the with-block body of train.py, in order
(lines 63-78). -/
def bodySites : List Site :=
  [Site.pModelType, Site.pNEstimators, Site.pMaxDepth, Site.pDataset,
   Site.lAccuracy, Site.lPrecision, Site.lRecall, Site.lF1, Site.logModel]

/-- The sequence of events one execution of train.py performs under an
injected fault: configuration first (lines 17-18), then the pre-run
computations until a fault, then — only if the pre-run phase completed —
the scoped run, whose close event happens even when the body faults, and
the prints only on normal exit. -/
def execTrace (fault : Fault) : List Ev :=
  let pre := takeUntilFault fault preSites
  [Ev.cfgUri, Ev.cfgExp] ++ pre.1.map Ev.computeEv ++
    (if pre.2 then []
     else
       let body := takeUntilFault fault bodySites
       [Ev.openEv] ++ body.1.map Ev.bodyEv ++ [Ev.closeEv] ++
         (if body.2 then [] else [Ev.printEv]))

/-- How many events of a trace satisfy a boolean test. -/
def countEv (t : List Ev) (p : Ev → Bool) : Nat := (t.filter p).length

/-- The largest number of simultaneously open runs along a trace: open
events push, close events pop. -/
def maxOpenCount (t : List Ev) : Nat :=
  (t.foldl (fun acc e =>
      match e with
      | Ev.openEv => (acc.1 + 1, max acc.2 (acc.1 + 1))
      | Ev.closeEv => (acc.1 - 1, acc.2)
      | _ => acc) ((0, 0) : Nat × Nat)).2

/-- The run lifecycle phases an execution passes through: unopened at
start, then running and a terminal phase for each run the backend ends up
storing. -/
def phaseOf (s : RunStatus) : Phase :=
  match s with
  | RunStatus.running => Phase.running
  | RunStatus.completed => Phase.completed
  | RunStatus.failed => Phase.failed

/-- The phase history of the single run of an execution of train.py. -/
def phaseTrace (mv : MetricVals) (fault : Fault) : List Phase :=
  Phase.unopened ::
    (execScript mv fault).tracker.backendRuns.flatMap
      (fun r => [Phase.running, phaseOf r.status])

/-- The transition relation of the design document state machine:
unopened to running, running to a terminal phase, nothing else; in
particular no transition skips running and none leaves a terminal
phase. -/
def allowedStep (p q : Phase) : Prop :=
  (p = Phase.unopened ∧ q = Phase.running) ∨
  (p = Phase.running ∧ (q = Phase.completed ∨ q = Phase.failed))

instance (p q : Phase) : Decidable (allowedStep p q) :=
  inferInstanceAs (Decidable ((p = Phase.unopened ∧ q = Phase.running) ∨
    (p = Phase.running ∧ (q = Phase.completed ∨ q = Phase.failed))))

/-- Concrete metric values used by witness executions. -/
def mvEx : MetricVals :=
  { accuracy := 93/100, precisionVal := 9/10, recallVal := 9/10,
    f1Val := 87/100 }

/-- C1: for every execution whose control reaches the run scope — no
fault strikes before the run opens — whether the with-block body exits
normally or an exception propagates out of it, the close half of the
scoped run executes exactly once, no run buffer stays active, and the
single stored run ends with status completed on normal exit and failed
on abnormal exit; it is never left running. -/
theorem run_scope_closes_exactly_once (mv : MetricVals) (fault : Fault)
    (h : faultBeforeRun fault = false) :
    (execScript mv fault).tracker.closeCount = 1 ∧
    (execScript mv fault).tracker.activeRun = none ∧
    runStatuses (execScript mv fault) =
      [if (execScript mv fault).normalExit then RunStatus.completed
       else RunStatus.failed] ∧
    RunStatus.running ∉ runStatuses (execScript mv fault) := by
  cases fault with
  | none =>
      refine ⟨rfl, rfl, rfl, ?_⟩
      show RunStatus.running ∉ [RunStatus.completed]
      simp
  | some s =>
      cases s <;>
        first
          | exact absurd h (by decide)
          | (refine ⟨rfl, rfl, rfl, ?_⟩
             show RunStatus.running ∉ [RunStatus.failed]
             simp)

/-- Witness for C1: the fault strikes inside the body, at the recall
metric logging call, with concrete metric values. -/
theorem run_scope_closes_exactly_once_witness :
    faultBeforeRun (some Site.lRecall) = false ∧
    ((execScript mvEx (some Site.lRecall)).tracker.closeCount = 1 ∧
     (execScript mvEx (some Site.lRecall)).tracker.activeRun = none ∧
     runStatuses (execScript mvEx (some Site.lRecall)) =
       [if (execScript mvEx (some Site.lRecall)).normalExit then
          RunStatus.completed
        else RunStatus.failed] ∧
     RunStatus.running ∉ runStatuses (execScript mvEx (some Site.lRecall))) :=
  ⟨by decide, run_scope_closes_exactly_once mvEx (some Site.lRecall) (by decide)⟩

/-- C2: after a successful execution the backend stores, for the single
run, exactly the four parameter records and the four metric records (and
the one artifact) that were logged before close, in order, with nothing
lost and nothing duplicated, and close ran exactly once. -/
theorem close_flushes_all_records (mv : MetricVals) :
    (execScript mv none).tracker.backendRuns =
      [{ data := { name := "run_2",
                   params := [("model_type", "RandomForestClassifier"),
                              ("n_estimators", "100"),
                              ("max_depth", "5"),
                              ("dataset", "iris")],
                   metrics := [("accuracy", mv.accuracy),
                               ("precision_macro", mv.precisionVal),
                               ("recall_macro", mv.recallVal),
                               ("f1_macro", mv.f1Val)],
                   artifacts := ["model"] },
         status := RunStatus.completed }] ∧
    (execScript mv none).tracker.closeCount = 1 :=
  ⟨rfl, rfl⟩

/-- The operation sequence of the design document scenario: open run
"run_2", log one parameter, log one metric, log one artifact, close with
outcome completed. -/
def scenarioOps : List (Site × RunOp) :=
  [(Site.pModelType, RunOp.logParam "model_type" "RandomForestClassifier"),
   (Site.lAccuracy, RunOp.logMetric "accuracy" (93/100)),
   (Site.logModel, RunOp.logModel "model")]

/-- The tracking state the scenario execution reaches. -/
def scenarioFinal : Tracker :=
  let st := startRun "run_2" Tracker.init
  let body := runBody none scenarioOps (newRunData "run_2")
  endRun (if body.2 then RunStatus.failed else RunStatus.completed)
    { st with activeRun := some body.1 }

/-- C3: the scenario — open run "run_2", log param model_type, log metric
accuracy, log artifact model, close completed — leaves the backend with
exactly one run named "run_2", status completed, holding one parameter,
one metric and one artifact. -/
theorem scenario_run2_one_of_each :
    scenarioFinal.backendRuns.map (fun r => r.data.name) = ["run_2"] ∧
    scenarioFinal.backendRuns.map (fun r => r.status) = [RunStatus.completed] ∧
    scenarioFinal.backendRuns.map (fun r => r.data.params.length) = [1] ∧
    scenarioFinal.backendRuns.map (fun r => r.data.metrics.length) = [1] ∧
    scenarioFinal.backendRuns.map (fun r => r.data.artifacts.length) = [1] ∧
    scenarioFinal.activeRun = none := by
  decide

/-- The four parameter names train.py logs, in order (lines 63-66). -/
def paramNames : List String :=
  ["model_type", "n_estimators", "max_depth", "dataset"]

/-- A run buffer on which the parameter name model_type is already set. -/
def dupRun : RunData :=
  { name := "run_2", params := [("model_type", "RandomForestClassifier")],
    metrics := [], artifacts := [] }

/-- C7: log_param fails with DuplicateParameter exactly when the name was
already set on the handle; the four parameter names train.py logs are
pairwise distinct, so in the fault-free body every log_param call
succeeds — the body raises nothing and ends holding all four parameter
records. -/
theorem log_param_duplicate_unreachable :
    List.Pairwise (fun a b => a ≠ b) paramNames ∧
    (∀ (r : RunData) (n v : String),
        r.params.any (fun p => p.1 == n) = true →
        applyRunOp (RunOp.logParam n v) r =
          Except.error Err.duplicateParameter) ∧
    (∀ mv : MetricVals,
        (runBody none (bodyOps mv) (newRunData "run_2")).2 = false ∧
        (runBody none (bodyOps mv) (newRunData "run_2")).1.params.map
            Prod.fst = paramNames) := by
  refine ⟨by decide, ?_, ?_⟩
  · intro r n v h
    simp [applyRunOp, h]
  · intro mv
    exact ⟨rfl, rfl⟩

/-- Witness for C7: a buffer that already holds model_type makes the
duplicate branch fire, and the concrete fault-free body raises nothing. -/
theorem log_param_duplicate_unreachable_witness :
    dupRun.params.any (fun p => p.1 == "model_type") = true ∧
    applyRunOp (RunOp.logParam "model_type" "x") dupRun =
      Except.error Err.duplicateParameter ∧
    (runBody none (bodyOps mvEx) (newRunData "run_2")).2 = false :=
  ⟨by decide,
   log_param_duplicate_unreachable.2.1 dupRun "model_type" "x" (by decide),
   (log_param_duplicate_unreachable.2.2 mvEx).1⟩

/-- C4: the train/test split of train.py is deterministic — any two
executions of the split stage, with the fixed dataset and the fixed seed
random_state=42, produce identical train and test partitions. -/
theorem split_deterministic (firstExec secondExec : Nat) :
    splitExecution firstExec = splitExecution secondExec := rfl

set_option maxRecDepth 100000 in
/-- C5: the split of lines 25-31 of train.py partitions the 150-row iris
dataset into 60 training rows (40 percent) and 90 test rows (60 percent);
it is stratified — each of the three classes contributes exactly 20
training rows and 30 test rows, so each class keeps the proportion one
third that it has in the full dataset — and every row lands in exactly
one side. -/
theorem stratified_split_balance :
    (train_test_split irisLabels 600 42).1.length = 60 ∧
    (train_test_split irisLabels 600 42).2.length = 90 ∧
    (countClass (train_test_split irisLabels 600 42).1 0 = 20 ∧
     countClass (train_test_split irisLabels 600 42).1 1 = 20 ∧
     countClass (train_test_split irisLabels 600 42).1 2 = 20) ∧
    (countClass (train_test_split irisLabels 600 42).2 0 = 30 ∧
     countClass (train_test_split irisLabels 600 42).2 1 = 30 ∧
     countClass (train_test_split irisLabels 600 42).2 2 = 30) ∧
    ((20 : ℚ) / 60 = countClass (List.range 150) 0 / 150 ∧
     (20 : ℚ) / 60 = countClass (List.range 150) 1 / 150 ∧
     (20 : ℚ) / 60 = countClass (List.range 150) 2 / 150 ∧
     (30 : ℚ) / 90 = countClass (List.range 150) 0 / 150 ∧
     (30 : ℚ) / 90 = countClass (List.range 150) 1 / 150 ∧
     (30 : ℚ) / 90 = countClass (List.range 150) 2 / 150) ∧
    (List.range 150).all (fun i =>
        ((train_test_split irisLabels 600 42).1 ++
           (train_test_split irisLabels 600 42).2).count i == 1) = true := by
  refine ⟨by decide, by decide, by decide, by decide, ?_, by decide⟩
  have h0 : countClass (List.range 150) 0 = 50 := by decide
  have h1 : countClass (List.range 150) 1 = 50 := by decide
  have h2 : countClass (List.range 150) 2 = 50 := by decide
  simp only [h0, h1, h2]
  norm_num

/-- The lifecycle chain of a run that completes. -/
lemma chain_completed :
    List.Chain' allowedStep [Phase.unopened, Phase.running, Phase.completed] := by
  simp [List.chain'_cons, allowedStep]

/-- The lifecycle chain of a run that fails. -/
lemma chain_failed :
    List.Chain' allowedStep [Phase.unopened, Phase.running, Phase.failed] := by
  simp [List.chain'_cons, allowedStep]

/-- The lifecycle chain of an execution that never opens a run. -/
lemma chain_unopened : List.Chain' allowedStep [Phase.unopened] :=
  List.chain'_singleton _

/-- C6: the program performs exactly one run per fault-free invocation;
under every fault at most one run ever exists and none stays open; the
event trace never has more than one run open at a time and never opens
more than once; the phase history of the run obeys the state machine
unopened to running to a terminal phase; and the state machine itself
admits no transition that skips running and none that leaves a terminal
phase. -/
theorem single_run_state_machine :
    (∀ mv : MetricVals,
        (execScript mv none).tracker.backendRuns.length = 1 ∧
        runStatuses (execScript mv none) = [RunStatus.completed]) ∧
    (∀ (mv : MetricVals) (fault : Fault),
        (execScript mv fault).tracker.backendRuns.length ≤ 1 ∧
        (execScript mv fault).tracker.activeRun = none ∧
        List.Chain' allowedStep (phaseTrace mv fault)) ∧
    (∀ fault : Fault,
        maxOpenCount (execTrace fault) ≤ 1 ∧
        countEv (execTrace fault) (fun e => e == Ev.openEv) ≤ 1) ∧
    (∀ p q : Phase, allowedStep p q →
        (p = Phase.unopened → q = Phase.running) ∧
        p ≠ Phase.completed ∧ p ≠ Phase.failed) := by
  refine ⟨fun mv => ⟨rfl, rfl⟩, ?_, by decide, by decide⟩
  intro mv fault
  cases fault with
  | none =>
      exact ⟨by show (1 : Nat) ≤ 1; decide, rfl,
        show List.Chain' allowedStep
          [Phase.unopened, Phase.running, Phase.completed] from chain_completed⟩
  | some s =>
      cases s <;>
        first
          | exact ⟨by show (0 : Nat) ≤ 1; decide, rfl,
              show List.Chain' allowedStep [Phase.unopened] from chain_unopened⟩
          | exact ⟨by show (1 : Nat) ≤ 1; decide, rfl,
              show List.Chain' allowedStep
                [Phase.unopened, Phase.running, Phase.failed] from chain_failed⟩

/-- Witness for C6: the state machine clause applied at the concrete
transition from unopened to running. -/
theorem single_run_state_machine_witness :
    allowedStep Phase.unopened Phase.running ∧
    ((Phase.unopened = Phase.unopened → Phase.running = Phase.running) ∧
     Phase.unopened ≠ Phase.completed ∧ Phase.unopened ≠ Phase.failed) :=
  ⟨by decide,
   single_run_state_machine.2.2.2 Phase.unopened Phase.running (by decide)⟩

/-- Configuration and run-opening events of a trace. -/
def isCfgOrOpen (e : Ev) : Bool :=
  match e with
  | Ev.cfgUri => true
  | Ev.cfgExp => true
  | Ev.openEv => true
  | _ => false

/-- C8: in every execution, whatever fault is injected, the tracking
backend address and the experiment namespace are each set exactly once,
and both configuration events come before any run-opening event — the
subtrace of configuration and open events is the two configuration
events, optionally followed by the single open. -/
theorem config_once_before_any_run :
    ∀ fault : Fault,
      countEv (execTrace fault) (fun e => e == Ev.cfgUri) = 1 ∧
      countEv (execTrace fault) (fun e => e == Ev.cfgExp) = 1 ∧
      ((execTrace fault).filter isCfgOrOpen = [Ev.cfgUri, Ev.cfgExp] ∨
       (execTrace fault).filter isCfgOrOpen =
         [Ev.cfgUri, Ev.cfgExp, Ev.openEv]) := by
  decide

/-- C9: on normal termination the process prints exactly five lines: one
completion line followed by the four metric lines, and every metric value
is rendered with exactly four digits after the decimal point. -/
theorem normal_exit_output_shape (mv : MetricVals) :
    (execScript mv none).output.length = 5 ∧
    (execScript mv none).output =
      ["Run completed",
       "Accuracy : " ++ fmt4 mv.accuracy,
       "Precision: " ++ fmt4 mv.precisionVal,
       "Recall   : " ++ fmt4 mv.recallVal,
       "F1-score : " ++ fmt4 mv.f1Val] ∧
    (∀ q : ℚ, fmt4 q = intPart4 q ++ "." ++ fracPart4 q ∧
      (fracPart4 q).length = 4) :=
  ⟨rfl, rfl, fun _ => ⟨rfl, rfl⟩⟩

/-- Computation events of a trace. -/
def isComputeEv (e : Ev) : Bool :=
  match e with
  | Ev.computeEv _ => true
  | _ => false

/-- C10: every computation call site — dataset loading, splitting,
fitting, prediction, the four metric computations — precedes the run
opening in the trace, and a fault at any of those sites terminates the
process abnormally with no run ever created: the backend stores nothing,
no run is open, and close never ran. -/
theorem compute_precedes_run_opening (mv : MetricVals) (s : Site)
    (h : preSites.contains s = true) :
    (execScript mv (some s)).tracker.backendRuns = [] ∧
    (execScript mv (some s)).tracker.activeRun = none ∧
    (execScript mv (some s)).normalExit = false ∧
    (execScript mv (some s)).tracker.closeCount = 0 ∧
    (execTrace none).filter (fun e => isComputeEv e || e == Ev.openEv) =
      preSites.map Ev.computeEv ++ [Ev.openEv] := by
  cases s <;>
    first
      | exact absurd h (by decide)
      | exact ⟨rfl, rfl, rfl, rfl, by decide⟩

/-- Witness for C10: a fault in the dataset-loading call leaves an empty
backend. -/
theorem compute_precedes_run_opening_witness :
    preSites.contains Site.loadData = true ∧
    (execScript mvEx (some Site.loadData)).tracker.backendRuns = [] :=
  ⟨by decide, (compute_precedes_run_opening mvEx Site.loadData (by decide)).1⟩
